import Mathlib

/-!
Shallow embedding of the NEO meta-agent core
(`at_meta_agent/risk_engine.py` and `at_meta_agent/app.py`).

Python floats are modelled as rationals (every concrete computation in the
claims is exact in binary floating point as well); `datetime.utcnow()` is
modelled as a natural number of seconds since the Unix epoch (always far
larger than the 120-second pruning window used by the code).  Python
exceptions that the embedded code can actually raise (`ZeroDivisionError`
from float division by zero, `KeyError` from indexing a plain `dict`) are
made explicit in return types.  Python `dict`s are modelled as association
lists in insertion order, matching the Python ordered-dict semantics.
Prometheus metric updates and log statements are omitted: they touch no
state read by the embedded code.
-/

deriving instance DecidableEq for Except

namespace NEO

/-- Exceptions the embedded Python code can raise. -/
inductive PyErr where
  | zeroDivisionError
  | keyError
deriving DecidableEq, Repr

/-- Embeds `d[k]` on an insertion-ordered Python dict (association list). -/
def getA {α β : Type} [DecidableEq α] : List (α × β) → α → Option β
  | [], _ => none
  | (k, v) :: rest, a => if k = a then some v else getA rest a

/-- Embeds `d[k] = v` on an insertion-ordered Python dict: update in place, or
append a fresh key at the end. -/
def setA {α β : Type} [DecidableEq α] : List (α × β) → α → β → List (α × β)
  | [], a, b => [(a, b)]
  | (k, v) :: rest, a, b =>
      if k = a then (k, b) :: rest else (k, v) :: setA rest a b

/-- Embeds `del d[k]` on an insertion-ordered Python dict. -/
def delA {α β : Type} [DecidableEq α] : List (α × β) → α → List (α × β)
  | [], _ => []
  | (k, v) :: rest, a => if k = a then rest else (k, v) :: delA rest a

/-- Embeds `risk_engine.RiskViolationType`. -/
inductive RiskViolationType where
  | maxDailyLoss
  | positionLimit
  | correlationLimit
  | concentrationRisk
  | velocityLimit
  | exposureLimit
deriving DecidableEq, Repr

/-- The `.value` string of each `RiskViolationType` member. -/
def RiskViolationType.value : RiskViolationType → String
  | .maxDailyLoss => "max_daily_loss"
  | .positionLimit => "position_limit"
  | .correlationLimit => "correlation_limit"
  | .concentrationRisk => "concentration_risk"
  | .velocityLimit => "velocity_limit"
  | .exposureLimit => "exposure_limit"

/-- Embeds `risk_engine.Position`. -/
structure Position where
  symbol : String
  quantity : ℚ
  average_price : ℚ
  current_price : ℚ
  timestamp : Nat
  correlation_bucket : String
deriving DecidableEq, Repr

/-- Embeds `Position.value`. -/
def Position.value (p : Position) : ℚ := p.quantity * p.current_price

/-- Embeds `risk_engine.RiskLimits` with the defaults of the source. -/
structure RiskLimits where
  max_daily_loss : ℚ := 10000
  max_position_value : ℚ := 50000
  max_total_exposure : ℚ := 200000
  max_concentration : ℚ := 3 / 10
  max_correlated_exposure : ℚ := 100000
  max_order_velocity : Nat := 100
  position_limit_per_symbol : Nat := 1000
deriving DecidableEq, Repr

/-- Embeds `risk_engine.RiskViolation`.  The free-form `metadata` dict and the
interpolated numbers inside `message` are omitted: no embedded control flow
reads them. -/
structure RiskViolation where
  violation_type : RiskViolationType
  symbol : Option String
  message : String
  severity : String
  timestamp : Nat
deriving DecidableEq, Repr

/-- Embeds `self.order_count`.  It starts life as `defaultdict(int)` and the
velocity check replaces it by a plain dict comprehension; `isDefaultdict`
records which of the two it currently is, because indexing a missing key
returns 0 on the former and raises `KeyError` on the latter. -/
structure OrderCountMap where
  entries : List (Nat × Nat)
  isDefaultdict : Bool
deriving DecidableEq, Repr

/-- Mutable state of `risk_engine.PortfolioRiskEngine`. -/
structure Engine where
  risk_limits : RiskLimits
  positions : List (String × Position)
  daily_pnl : ℚ
  daily_start_value : ℚ
  order_count : OrderCountMap
  violations : List RiskViolation
  kill_switch_active : Bool
  blocked_symbols : List String
deriving DecidableEq, Repr

/-- Embeds `PortfolioRiskEngine.__init__` with default limits. -/
def initEngine : Engine :=
  { risk_limits := {}
    positions := []
    daily_pnl := 0
    daily_start_value := 0
    order_count := { entries := [], isDefaultdict := true }
    violations := []
    kill_switch_active := false
    blocked_symbols := [] }

/-- Embeds `self.correlation_buckets`, in insertion order. -/
def correlationBuckets : List (String × List String) :=
  [("tech", ["AAPL", "MSFT", "GOOGL", "META", "NVDA"]),
   ("finance", ["JPM", "BAC", "GS", "MS", "WFC"]),
   ("energy", ["XOM", "CVX", "COP", "SLB", "OXY"]),
   ("consumer", ["AMZN", "TSLA", "WMT", "HD", "NKE"])]

/-- Embeds `PortfolioRiskEngine.get_correlation_bucket`. -/
def getCorrelationBucket (symbol : String) : String :=
  ((correlationBuckets.find? (fun b => b.2.contains symbol)).map (·.1)).getD ("other")

/-- Sum of `pos.value` over a positions dict. -/
def totalValue (positions : List (String × Position)) : ℚ :=
  (positions.map (fun p => p.2.value)).sum

/-- Embeds `PortfolioRiskEngine._update_exposure_metrics`: recomputes `daily_pnl`
as current total position value minus `daily_start_value`. -/
def updateExposureMetrics (e : Engine) : Engine :=
  { e with daily_pnl := totalValue e.positions - e.daily_start_value }

/-- Embeds `PortfolioRiskEngine.update_position`. -/
def updatePosition (e : Engine) (now : Nat) (symbol : String)
    (quantity_change price : ℚ) : Engine :=
  let e' :=
    match getA e.positions symbol with
    | none =>
        let fresh : Position :=
          { symbol := symbol
            quantity := quantity_change
            average_price := price
            current_price := price
            timestamp := now
            correlation_bucket := getCorrelationBucket symbol }
        { e with positions := setA e.positions symbol fresh }
    | some position =>
        let new_quantity := position.quantity + quantity_change
        if new_quantity = 0 then
          { e with positions := delA e.positions symbol }
        else
          let new_avg :=
            if quantity_change > 0 then
              (position.quantity * position.average_price
                + quantity_change * price) / new_quantity
            else position.average_price
          let updated : Position :=
            { position with
                quantity := new_quantity
                average_price := new_avg
                current_price := price
                timestamp := now }
          { e with positions := setA e.positions symbol updated }
  updateExposureMetrics e'

/-- Embeds `PortfolioRiskEngine.emergency_stop`. -/
def emergencyStop (e : Engine) (reason : String) (now : Nat) : Engine :=
  { e with
      kill_switch_active := true
      violations := e.violations ++
        [{ violation_type := .exposureLimit
           symbol := none
           message := "Emergency stop: " ++ reason
           severity := "emergency"
           timestamp := now }] }

/-- Embeds `PortfolioRiskEngine._check_risk_limits`: the periodic sweep run from
`update_market_prices`; two critical violations in one sweep escalate to
`emergency_stop`. -/
def checkRiskLimitsSweep (e : Engine) (now : Nat) : Engine :=
  let v1 : List RiskViolation :=
    if e.daily_pnl < -e.risk_limits.max_daily_loss then
      [{ violation_type := .maxDailyLoss
         symbol := none
         message := "Daily loss exceeds limit"
         severity := "critical"
         timestamp := now }]
    else []
  let total := totalValue e.positions
  let v2 : List RiskViolation :=
    if total > e.risk_limits.max_total_exposure then
      [{ violation_type := .exposureLimit
         symbol := none
         message := "Total exposure exceeds limit"
         severity := "critical"
         timestamp := now }]
    else []
  let sweep := v1 ++ v2
  let e' := { e with violations := e.violations ++ sweep }
  let critical := sweep.filter (fun v => v.severity == "critical")
  if 2 ≤ critical.length then
    emergencyStop e' ("Multiple critical risk violations") now
  else e'

/-- Embeds `PortfolioRiskEngine.update_market_prices`. -/
def updateMarketPrices (e : Engine) (now : Nat)
    (prices : List (String × ℚ)) : Engine :=
  let positions' := prices.foldl
    (fun ps sp =>
      match getA ps sp.1 with
      | some pos => setA ps sp.1 ({ pos with current_price := sp.2 })
      | none => ps)
    e.positions
  checkRiskLimitsSweep (updateExposureMetrics { e with positions := positions' }) now

/-- Embeds `PortfolioRiskEngine.reset_daily_counters`. -/
def resetDailyCounters (e : Engine) : Engine :=
  { e with
      daily_start_value := totalValue e.positions
      daily_pnl := 0
      order_count := { e.order_count with entries := [] } }

/-- Embeds `self.order_count[current_minute] += 1`: read (raising `KeyError` on a
plain dict missing the key, defaulting to 0 on the defaultdict) then write. -/
def bumpCount (oc : OrderCountMap) (k : Nat) : Option OrderCountMap :=
  match getA oc.entries k with
  | some c => some { oc with entries := setA oc.entries k (c + 1) }
  | none =>
      if oc.isDefaultdict then
        some { oc with entries := oc.entries ++ [(k, 1)] }
      else none

/-- Embeds `self.order_count = {k: v for k, v in self.order_count.items() if k > cutoff}`:
keeps recent entries and, crucially, replaces the defaultdict by a plain dict. -/
def pruneCounts (oc : OrderCountMap) (cutoff : Nat) : OrderCountMap :=
  { entries := oc.entries.filter (fun kv => cutoff < kv.1), isDefaultdict := false }

/-- The quantity currently held in `symbol` (0 when no position exists):
`current_position.quantity if current_position else 0`. -/
def heldQuantity (e : Engine) (symbol : String) : ℚ :=
  ((getA e.positions symbol).map (·.quantity)).getD 0

/-- Lines 199—206 of `check_order_risk`: the projected `new_value` of the
position of the symbol after the order. -/
def projectedValue (e : Engine) (symbol action : String) (quantity price : ℚ) : ℚ :=
  if action = "BUY" then (heldQuantity e symbol + quantity) * price
  else |(heldQuantity e symbol - quantity) * price|

/-- The correlation-bucket and order-velocity checks of `check_order_risk`
(lines 257—306), shared by both branches of the concentration `if`. -/
def checkBucketAndVelocity (e : Engine) (now : Nat) (symbol : String)
    (new_value current_value : ℚ) :
    Engine × Except PyErr (Bool × Option RiskViolation) :=
  let bucket := getCorrelationBucket symbol
  let bucket_exposure :=
    ((e.positions.filter (fun p => p.2.correlation_bucket == bucket)).map
      (fun p => p.2.value)).sum
  let new_bucket_exposure := bucket_exposure + (new_value - current_value)
  if new_bucket_exposure > e.risk_limits.max_correlated_exposure then
    (e, .ok (false, some
      { violation_type := .correlationLimit
        symbol := some symbol
        message := "Correlated exposure exceeds limit"
        severity := "warning"
        timestamp := now }))
  else
    let current_minute := now / 60 * 60
    match bumpCount e.order_count current_minute with
    | none => (e, .error .keyError)
    | some oc1 =>
        let cutoff := now - 120
        let oc2 := pruneCounts oc1 cutoff
        let e' := { e with order_count := oc2 }
        match getA oc2.entries current_minute with
        | none => (e', .error .keyError)
        | some c =>
            if c > e.risk_limits.max_order_velocity then
              (e', .ok (false, some
                { violation_type := .velocityLimit
                  symbol := some symbol
                  message := "Order velocity exceeds limit"
                  severity := "warning"
                  timestamp := now }))
            else (e', .ok (true, none))

/-- Embeds `PortfolioRiskEngine.check_order_risk`.  Returns the (possibly mutated)
engine together with either the Python return value or the exception the
method raises. -/
def checkOrderRisk (e : Engine) (now : Nat) (symbol action : String)
    (quantity price : ℚ) : Engine × Except PyErr (Bool × Option RiskViolation) :=
  if e.kill_switch_active then
    (e, .ok (false, some
      { violation_type := .exposureLimit
        symbol := some symbol
        message := "Kill switch is active - all trading halted"
        severity := "emergency"
        timestamp := now }))
  else if symbol ∈ e.blocked_symbols then
    (e, .ok (false, some
      { violation_type := .positionLimit
        symbol := some symbol
        message := "Symbol is blocked"
        severity := "critical"
        timestamp := now }))
  else if e.daily_pnl < -e.risk_limits.max_daily_loss then
    (e, .ok (false, some
      { violation_type := .maxDailyLoss
        symbol := some symbol
        message := "Daily loss limit exceeded"
        severity := "critical"
        timestamp := now }))
  else if action = "BUY" ∨ action = "SELL" then
    let new_value := projectedValue e symbol action quantity price
    if new_value > e.risk_limits.max_position_value then
      (e, .ok (false, some
        { violation_type := .positionLimit
          symbol := some symbol
          message := "Position value exceeds limit"
          severity := "warning"
          timestamp := now }))
    else
      let current_value := ((getA e.positions symbol).map Position.value).getD 0
      let current_total := totalValue e.positions
      let new_total := current_total + (new_value - current_value)
      if new_total > e.risk_limits.max_total_exposure then
        (e, .ok (false, some
          { violation_type := .exposureLimit
            symbol := some symbol
            message := "Total exposure would exceed limit"
            severity := "warning"
            timestamp := now }))
      else if current_total > 0 then
        if new_total = 0 then
          (e, .error .zeroDivisionError)
        else if new_value / new_total > e.risk_limits.max_concentration then
          (e, .ok (false, some
            { violation_type := .concentrationRisk
              symbol := some symbol
              message := "Position concentration exceeds limit"
              severity := "warning"
              timestamp := now }))
        else checkBucketAndVelocity e now symbol new_value current_value
      else checkBucketAndVelocity e now symbol new_value current_value
  else (e, .ok (true, none))

/-- Embeds `app.AgentDecision`. -/
structure AgentDecision where
  agent_id : String
  symbol : String
  action : String
  quantity : ℚ
  confidence : ℚ
  timestamp : Nat
  correlation_id : String
  reasoning : String
deriving DecidableEq, Repr

/-- Embeds `app.MetaDecision`. -/
structure MetaDecision where
  symbol : String
  action : String
  quantity : ℚ
  confidence : ℚ
  participating_agents : List String
  consensus_method : String
  timestamp : Nat
  correlation_id : String
  override_applied : Option String := none
deriving DecidableEq, Repr

/-- Embeds `app.VotingStrategy`. -/
inductive VotingStrategy where
  | majority
  | weighted
  | unanimous
  | confidenceWeighted
deriving DecidableEq, Repr

/-- Keys of a Python dict built by inserting each list element once, in
first-occurrence order — the iteration order of `action_weights.keys()` /
`action_counts.keys()`. -/
def firstOccurrences (l : List String) : List String :=
  l.foldl (fun acc a => if acc.contains a then acc else acc ++ [a]) []

/-- The decisions voting for a given action, in arrival order. -/
def votingGroup (ds : List AgentDecision) (a : String) : List AgentDecision :=
  ds.filter (fun d => d.action == a)

/-- Embeds `action_weights[a]["weight"]`: summed confidence of the group. -/
def actionWeight (ds : List AgentDecision) (a : String) : ℚ :=
  ((votingGroup ds a).map (·.confidence)).sum

/-- Embeds `action_weights[a]["quantity"]`: confidence-weighted quantity sum. -/
def actionWeightedQty (ds : List AgentDecision) (a : String) : ℚ :=
  ((votingGroup ds a).map (fun d => d.quantity * d.confidence)).sum

/-- Embeds `action_weights[a]["agents"]` / `action_counts[a]["agents"]`. -/
def actionAgents (ds : List AgentDecision) (a : String) : List String :=
  (votingGroup ds a).map (·.agent_id)

/-- Embeds `action_counts[a]["count"]`. -/
def actionCount (ds : List AgentDecision) (a : String) : Nat :=
  (votingGroup ds a).length

/-- Embeds `action_counts[a]["total_quantity"]`. -/
def actionTotalQty (ds : List AgentDecision) (a : String) : ℚ :=
  ((votingGroup ds a).map (·.quantity)).sum

/-- The Python `max(keys, key=f)` call: the first key attaining the maximum, in
iteration order (a later key replaces the running best only when strictly
greater). -/
def argmaxBy {β : Type} [LinearOrder β] (f : String → β) :
    List String → Option String
  | [] => none
  | a :: rest => some (rest.foldl (fun best x => if f best < f x then x else best) a)

/-- Embeds `MetaAgentService._confidence_weighted_vote`. -/
def confidenceWeightedVote (now : Nat) (ds : List AgentDecision) :
    Option MetaDecision :=
  match ds with
  | [] => none
  | d0 :: _ =>
      let actions := firstOccurrences (ds.map (·.action))
      let total_weight := (ds.map (·.confidence)).sum
      match argmaxBy (actionWeight ds) actions with
      | none => none
      | some winning =>
          let w := actionWeight ds winning
          let confidence := if total_weight > 0 then w / total_weight else 0
          let avg_quantity := if w > 0 then actionWeightedQty ds winning / w else 0
          some
            { symbol := d0.symbol
              action := winning
              quantity := avg_quantity
              confidence := confidence
              participating_agents := actionAgents ds winning
              consensus_method := "confidence_weighted"
              timestamp := now
              correlation_id := d0.correlation_id
              override_applied := none }

/-- Embeds `MetaAgentService._majority_vote`.  (On an empty input list the Python
raises `ValueError` from `max()` over no keys; that call is unreachable —
`_apply_voting_strategy` requires at least two decisions — and is encoded
as `none`.) -/
def majorityVote (now : Nat) (ds : List AgentDecision) : Option MetaDecision :=
  match ds with
  | [] => none
  | d0 :: _ =>
      let actions := firstOccurrences (ds.map (·.action))
      match argmaxBy (fun a => actionCount ds a) actions with
      | none => none
      | some winning =>
          let confidence := (actionCount ds winning : ℚ) / (ds.length : ℚ)
          let avg_quantity := actionTotalQty ds winning / (actionCount ds winning : ℚ)
          some
            { symbol := d0.symbol
              action := winning
              quantity := avg_quantity
              confidence := confidence
              participating_agents := actionAgents ds winning
              consensus_method := "majority"
              timestamp := now
              correlation_id := d0.correlation_id
              override_applied := none }

/-- Embeds `MetaAgentService._weighted_vote`: currently delegates to majority. -/
def weightedVote (now : Nat) (ds : List AgentDecision) : Option MetaDecision :=
  majorityVote now ds

/-- Embeds `MetaAgentService._unanimous_vote`. -/
def unanimousVote (now : Nat) (ds : List AgentDecision) : Option MetaDecision :=
  if 1 < (firstOccurrences (ds.map (·.action))).length then none
  else majorityVote now ds

/-- Embeds `MetaAgentService._apply_voting_strategy`. -/
def applyVotingStrategy (strat : VotingStrategy) (now : Nat)
    (ds : List AgentDecision) : Option MetaDecision :=
  if ds.length < 2 then none
  else
    match strat with
    | .confidenceWeighted => confidenceWeightedVote now ds
    | .majority => majorityVote now ds
    | .weighted => weightedVote now ds
    | .unanimous => unanimousVote now ds

/-- Mutable state of `app.MetaAgentService` (the NATS handles are external
collaborators and carry no coordination state). -/
structure MetaService where
  agent_decisions : List (String × List AgentDecision)
  voting_strategy : VotingStrategy
  risk_overrides : List String
  paused_strategies : List String
  symbol_limits : List (String × ℚ)
  risk_engine : Engine
deriving DecidableEq, Repr

/-- Embeds `MetaAgentService.__init__`. -/
def initService : MetaService :=
  { agent_decisions := []
    voting_strategy := .confidenceWeighted
    risk_overrides := []
    paused_strategies := []
    symbol_limits := []
    risk_engine := initEngine }

/-- Embeds `estimated_price = 100.0  # Placeholder` in `_apply_risk_overrides`. -/
def estimatedPrice : ℚ := 100

/-- Embeds `MetaAgentService._apply_risk_overrides` with the risk-check price as an
explicit parameter (the source passes `estimated_price`; see
`applyRiskOverrides`). -/
def applyRiskOverridesAt (price : ℚ) (svc : MetaService) (now : Nat)
    (d : MetaDecision) : MetaService × Except PyErr MetaDecision :=
  let checked := checkOrderRisk svc.risk_engine now d.symbol d.action d.quantity price
  let svc' := { svc with risk_engine := checked.1 }
  match checked.2 with
  | .error pe => (svc', .error pe)
  | .ok (allowed, violation) =>
      if allowed = false then
        let tag :=
          match violation with
          | some v => "risk_blocked: " ++ v.violation_type.value
          | none => "risk_blocked: unknown"
        (svc', .ok { d with action := "HOLD", quantity := 0, override_applied := some tag })
      else if svc.risk_overrides.contains ("emergency_stop")
          || checked.1.kill_switch_active then
        (svc', .ok { d with action := "HOLD", quantity := 0,
                            override_applied := some ("emergency_stop") })
      else if svc.paused_strategies.contains d.symbol
          || checked.1.blocked_symbols.contains d.symbol then
        (svc', .ok { d with action := "HOLD", quantity := 0,
                            override_applied := some ("symbol_paused") })
      else
        match getA svc.symbol_limits d.symbol with
        | some max_quantity =>
            if d.quantity > max_quantity then
              (svc', .ok { d with quantity := max_quantity,
                                  override_applied := some ("position_limit") })
            else (svc', .ok d)
        | none => (svc', .ok d)

/-- Embeds `MetaAgentService._apply_risk_overrides` as written: the risk check is
made at the hardcoded `estimated_price`. -/
def applyRiskOverrides : MetaService → Nat → MetaDecision →
    MetaService × Except PyErr MetaDecision :=
  applyRiskOverridesAt estimatedPrice

/-- Embeds `MetaAgentService._coordinate_decisions`.  `_publish_meta_decision`
wraps its publish in `try/except` and mutates no coordination state, so it
does not appear; an exception escaping the risk check aborts the method
before the buffer cleanup (the handler then `nak`s), which the `Option
PyErr` component records. -/
def coordinateDecisions (svc : MetaService) (now : Nat) (symbol cid : String) :
    MetaService × Option PyErr :=
  let decisions := (getA svc.agent_decisions symbol).getD []
  let relevant := decisions.filter (fun d => d.correlation_id == cid)
  if relevant.length < 2 then (svc, none)
  else
    match applyVotingStrategy svc.voting_strategy now relevant with
    | none => (svc, none)
    | some md =>
        let overridden := applyRiskOverrides svc now md
        match overridden.2 with
        | .error pe => (overridden.1, some pe)
        | .ok _final =>
            let svc' := overridden.1
            let kept := ((getA svc'.agent_decisions symbol).getD []).filter
              (fun d => !(d.correlation_id == cid))
            ({ svc' with agent_decisions := setA svc'.agent_decisions symbol kept },
             none)

/-- Lines 184—189 of `_handle_agent_decision`: the decision is appended to
the buffer of its symbol — unconditionally, with no validation of any field. -/
def bufferDecision (svc : MetaService) (d : AgentDecision) : MetaService :=
  let buf := ((getA svc.agent_decisions d.symbol).getD []) ++ [d]
  { svc with agent_decisions := setA svc.agent_decisions d.symbol buf }

/-- Embeds `MetaAgentService._handle_agent_decision` after JSON parsing: buffer the
decision, then attempt coordination.  A `some` error component corresponds
to the except branch of the handler (`nak`). -/
def handleAgentDecision (svc : MetaService) (now : Nat) (d : AgentDecision) :
    MetaService × Option PyErr :=
  coordinateDecisions (bufferDecision svc d) now d.symbol d.correlation_id

/-- One trade event fed to `update_position`. -/
structure Trade where
  time : Nat
  symbol : String
  quantity_change : ℚ
  price : ℚ
deriving DecidableEq, Repr

/-- A sequence of `update_position` calls. -/
def applyTrades (e : Engine) (ts : List Trade) : Engine :=
  ts.foldl (fun acc t => updatePosition acc t.time t.symbol t.quantity_change t.price) e

/-- Engine state after BUY 10 AAPL at 100 from a fresh engine. -/
def c1AfterBuy1 : Engine := updatePosition initEngine 0 ("AAPL") 10 100

/-- State after a further BUY 10 AAPL at 200. -/
def c1AfterBuy2 : Engine := updatePosition c1AfterBuy1 0 ("AAPL") 10 200

/-- State after a further SELL 15 AAPL at 180 (quantity change −15). -/
def c1AfterSell : Engine := updatePosition c1AfterBuy2 0 ("AAPL") (-15) 180

/-- An engine holding a single long position: 10 AAPL bought and marked at 100. -/
def engineWithOnePosition : Engine :=
  { initEngine with positions :=
      [("AAPL", { symbol := "AAPL", quantity := 10, average_price := 100,
                  current_price := 100, timestamp := 0, correlation_bucket := "tech" })] }

/-- A fresh engine whose kill switch has been activated. -/
def killSwitchEngine : Engine := { initEngine with kill_switch_active := true }

/-- First order check on a fresh engine, at epoch second 120000 (an exact
minute boundary, so its minute bucket key is 120000). -/
def velocityFirstCall : Engine × Except PyErr (Bool × Option RiskViolation) :=
  checkOrderRisk initEngine 120000 ("AAPL") ("BUY") 1 1

/-- State after a first-ever trade for a symbol with quantity change 0. -/
def zeroQtyFirstTrade : Engine := updatePosition initEngine 0 ("AAPL") 0 100

/-- Trades with nonzero quantity change, closing AAPL exactly. -/
def tradesWitness : List Trade :=
  [⟨0, "AAPL", 10, 100⟩, ⟨1, "AAPL", -10, 50⟩, ⟨2, "MSFT", 3, 10⟩]

/-- An agent decision violating every validation rule the spec lists: empty
symbol and correlation id, action outside BUY/SELL/HOLD, confidence above 1,
negative quantity. -/
def badDecision : AgentDecision :=
  { agent_id := "agent-1", symbol := "", action := "FOO", quantity := -5,
    confidence := 2, timestamp := 0, correlation_id := "", reasoning := "" }

/-- Agent decision: a1 votes BUY 1 AAPL with confidence 0.9 (round c1). -/
def dBuy1 : AgentDecision := ⟨"a1", "AAPL", "BUY", 1, 9/10, 50, "c1", "momentum"⟩

/-- Agent decision: a2 votes BUY 1 AAPL with confidence 0.8 (round c1). -/
def dBuy2 : AgentDecision := ⟨"a2", "AAPL", "BUY", 1, 4/5, 50, "c1", "breakout"⟩

/-- Agent decision: a3 votes SELL 5 AAPL with confidence 0.6 (round c1). -/
def dSell : AgentDecision := ⟨"a3", "AAPL", "SELL", 5, 3/5, 50, "c1", "reversal"⟩

/-- Agent decision buffered for the same symbol under another round, c2. -/
def dOtherCorr : AgentDecision := ⟨"a4", "AAPL", "HOLD", 0, 1/2, 50, "c2", "wait"⟩

/-- Agent decision buffered for a different symbol. -/
def dOtherSym : AgentDecision := ⟨"a5", "MSFT", "BUY", 2, 7/10, 50, "c9", "drift"⟩

/-- Expected confidence-weighted vote outcome on `[dBuy1, dSell]` at time 7:
BUY wins with weight 0.9 of total 1.5. -/
def mdVoteWitness : MetaDecision :=
  ⟨"AAPL", "BUY", 1, 3/5, ["a1"], "confidence_weighted", 7, "c1", none⟩

/-- A service with two symbols buffered; AAPL holds rounds c1 (two decisions)
and c2 (one decision). -/
def svcTwoBuffers : MetaService :=
  { initService with agent_decisions :=
      [("AAPL", [dBuy1, dBuy2, dOtherCorr]), ("MSFT", [dOtherSym])] }

/-- Expected coordinated decision for round c1 of `svcTwoBuffers`. -/
def mdCoordWitness : MetaDecision :=
  ⟨"AAPL", "BUY", 1, 1, ["a1", "a2"], "confidence_weighted", 120000, "c1", none⟩

theorem getA_setA_self {α β : Type} [DecidableEq α] (l : List (α × β)) (k : α) (v : β) :
    getA (setA l k v) k = some v := by
  induction l with
  | nil => simp [getA, setA]
  | cons hd tl ih =>
      by_cases h : hd.1 = k
      · simp [getA, setA, h]
      · simp [getA, setA, h, ih]

theorem getA_setA_ne {α β : Type} [DecidableEq α] (l : List (α × β)) (k k' : α) (v : β)
    (h : k ≠ k') : getA (setA l k v) k' = getA l k' := by
  induction l with
  | nil => simp [getA, setA, h]
  | cons hd tl ih =>
      by_cases hh : hd.1 = k
      · simp [getA, setA, hh, h]
      · simp only [setA, if_neg hh, getA]
        by_cases hk : hd.1 = k'
        · simp [hk]
        · simp [hk, ih]

theorem mem_setA {α β : Type} [DecidableEq α] {l : List (α × β)} {k : α} {v : β}
    {p : α × β} (h : p ∈ setA l k v) : p = (k, v) ∨ p ∈ l := by
  induction l with
  | nil => simpa [setA] using h
  | cons hd tl ih =>
      by_cases hh : hd.1 = k
      · simp only [setA, if_pos hh, List.mem_cons] at h
        rcases h with h | h
        · exact Or.inl (by simpa [← hh] using h)
        · exact Or.inr (List.mem_cons_of_mem _ h)
      · simp only [setA, if_neg hh, List.mem_cons] at h
        rcases h with h | h
        · exact Or.inr (h ▸ List.mem_cons_self _ _)
        · rcases ih h with h' | h'
          · exact Or.inl h'
          · exact Or.inr (List.mem_cons_of_mem _ h')

theorem mem_delA {α β : Type} [DecidableEq α] {l : List (α × β)} {k : α}
    {p : α × β} (h : p ∈ delA l k) : p ∈ l := by
  induction l with
  | nil => simp [delA] at h
  | cons hd tl ih =>
      by_cases hh : hd.1 = k
      · exact List.mem_cons_of_mem _ (by simpa [delA, if_pos hh] using h)
      · simp only [delA, if_neg hh, List.mem_cons] at h
        rcases h with h | h
        · exact h ▸ List.mem_cons_self _ _
        · exact List.mem_cons_of_mem _ (ih h)

/-- The daily pnl written by `update_position` is always the mark-to-market
total position value minus the daily baseline; no trade-level quantity enters
it. -/
theorem updatePosition_daily_pnl (e : Engine) (now : Nat) (s : String) (qc p : ℚ) :
    (updatePosition e now s qc p).daily_pnl =
      totalValue (updatePosition e now s qc p).positions - e.daily_start_value := by
  unfold updatePosition updateExposureMetrics
  rcases getA e.positions s with _ | pos
  · rfl
  · by_cases h : pos.quantity + qc = 0 <;> simp [h]

/-- C1: the claimed position arithmetic holds (average 150, quantity 20, then
quantity 5 after the sell) but the realized-pnl part is false: the code books
no (180−150)×15 = 450 anywhere.  `daily_pnl` after the sell is the
mark-to-market value 5×180 − 0 = 900, not the prior 4000 plus 450. -/
theorem C1_counterexample :
    (getA c1AfterBuy2.positions ("AAPL")).map (fun q => (q.quantity, q.average_price))
        = some (20, 150) ∧
    (getA c1AfterSell.positions ("AAPL")).map (fun q => (q.quantity, q.average_price))
        = some (5, 150) ∧
    c1AfterBuy2.daily_pnl = 4000 ∧
    c1AfterSell.daily_pnl = 900 ∧
    c1AfterSell.daily_pnl ≠ c1AfterBuy2.daily_pnl + 450 := by
  refine ⟨?_, ?_, ?_, ?_, ?_⟩ <;>
    simp [c1AfterSell, c1AfterBuy2, c1AfterBuy1, updatePosition, initEngine,
      updateExposureMetrics, getA, setA, getCorrelationBucket, correlationBuckets,
      totalValue, Position.value] <;>
    norm_num [getA, setA]

/-- C1 (amended): BUY 10 at 100 then BUY 10 at 200 yields average price 150
and quantity 20; SELL 15 at 180 leaves quantity 5.  No realized pnl is
tracked: `Position` has no realized-pnl field and `update_position` always
recomputes `daily_pnl` as total market value minus the daily baseline (here
5×180 − 0 = 900), so no 450 is added anywhere. -/
theorem C1_update_position_sequence :
    ((getA c1AfterBuy2.positions ("AAPL")).map (fun q => (q.quantity, q.average_price))
        = some (20, 150) ∧
     (getA c1AfterSell.positions ("AAPL")).map (fun q => (q.quantity, q.average_price))
        = some (5, 150) ∧
     c1AfterSell.daily_pnl = 900) ∧
    ∀ (e : Engine) (now : Nat) (s : String) (qc p : ℚ),
      (updatePosition e now s qc p).daily_pnl =
        totalValue (updatePosition e now s qc p).positions - e.daily_start_value := by
  refine ⟨⟨?_, ?_, ?_⟩, updatePosition_daily_pnl⟩ <;>
    simp [c1AfterSell, c1AfterBuy2, c1AfterBuy1, updatePosition, initEngine,
      updateExposureMetrics, getA, setA, getCorrelationBucket, correlationBuckets,
      totalValue, Position.value] <;>
    norm_num [getA, setA]

/-- C2: a SELL that fully closes the only open position makes the projected
total exposure zero while the pre-trade total is positive, and
`check_order_risk` then raises `ZeroDivisionError` computing the
concentration 0/0 (the guard tests `current_total > 0` but divides by
`new_total`) instead of returning normally. -/
theorem C2_zero_total_division_error :
    totalValue engineWithOnePosition.positions = 1000 ∧
    projectedValue engineWithOnePosition ("AAPL") ("SELL") 10 100 = 0 ∧
    (checkOrderRisk engineWithOnePosition 120000 ("AAPL") ("SELL") 10 100).2 =
      .error .zeroDivisionError := by
  refine ⟨?_, ?_, ?_⟩ <;>
    simp [engineWithOnePosition, checkOrderRisk, initEngine, projectedValue,
      heldQuantity, getA, totalValue, Position.value, checkBucketAndVelocity] <;>
    norm_num [getA, setA]

/-- C3: the first order check (epoch second 120000) passes and replaces the
velocity defaultdict by a plain dict; a second check in the same minute still
works, but a check in the next minute bucket (second 120060) raises
`KeyError` on `order_count[current_minute] += 1` instead of returning
normally. -/
theorem C3_velocity_window_keyerror :
    velocityFirstCall.2 = .ok (true, none) ∧
    (checkOrderRisk velocityFirstCall.1 120000 ("AAPL") ("BUY") 1 1).2 = .ok (true, none) ∧
    (checkOrderRisk velocityFirstCall.1 120060 ("AAPL") ("BUY") 1 1).2 = .error .keyError := by
  refine ⟨?_, ?_, ?_⟩ <;>
    simp [velocityFirstCall, checkOrderRisk, initEngine, projectedValue,
      heldQuantity, getA, setA, totalValue, Position.value, checkBucketAndVelocity,
      getCorrelationBucket, correlationBuckets, bumpCount, pruneCounts] <;>
    norm_num [getA, setA]

/-- C5: with the kill switch active, even a HOLD order is denied with an
emergency violation, contradicting the claim that HOLD is allowed
unconditionally with no checks applied. -/
theorem C5_counterexample :
    (checkOrderRisk killSwitchEngine 0 ("AAPL") ("HOLD") 1 1).2 =
      .ok (false, some
        { violation_type := .exposureLimit, symbol := some ("AAPL"),
          message := "Kill switch is active - all trading halted",
          severity := "emergency", timestamp := 0 }) := by
  simp [killSwitchEngine, checkOrderRisk, initEngine]

/-- C5 (amended): HOLD is allowed with none of the position, exposure,
concentration, correlation or velocity checks applied — but only after the
kill-switch, blocked-symbol and daily-loss gates pass; those three gates run
before the action is inspected. -/
theorem C5_hold_allowed (e : Engine) (now : Nat) (symbol : String) (quantity price : ℚ)
    (hkill : e.kill_switch_active = false)
    (hblocked : symbol ∉ e.blocked_symbols)
    (hloss : ¬ e.daily_pnl < -e.risk_limits.max_daily_loss) :
    checkOrderRisk e now symbol ("HOLD") quantity price = (e, .ok (true, none)) := by
  simp [checkOrderRisk, hkill, hblocked, hloss]

/-- Witness for `C5_hold_allowed` at a fresh engine. -/
theorem C5_hold_allowed_witness :
    initEngine.kill_switch_active = false ∧
    ("AAPL") ∉ initEngine.blocked_symbols ∧
    ¬ initEngine.daily_pnl < -initEngine.risk_limits.max_daily_loss ∧
    checkOrderRisk initEngine 0 ("AAPL") ("HOLD") 5 7 = (initEngine, .ok (true, none)) :=
  ⟨rfl, by simp [initEngine], by norm_num [initEngine],
    C5_hold_allowed initEngine 0 ("AAPL") 5 7 rfl (by simp [initEngine])
      (by norm_num [initEngine])⟩

/-- C7: a first-ever trade for a symbol with quantity change 0 creates and
stores a Position whose quantity is 0, contradicting the claimed invariant. -/
theorem C7_counterexample :
    (getA zeroQtyFirstTrade.positions ("AAPL")).map (·.quantity) = some 0 := by
  simp [zeroQtyFirstTrade, updatePosition, initEngine, updateExposureMetrics,
    getA, setA, getCorrelationBucket, correlationBuckets]

/-- Positions with nonzero quantity stay nonzero through one
`update_position` call whose quantity change is nonzero. -/
theorem updatePosition_preserves_nonzero (e : Engine) (now : Nat) (s : String)
    (qc p : ℚ) (hqc : qc ≠ 0)
    (hinv : ∀ q ∈ e.positions, q.2.quantity ≠ 0) :
    ∀ q ∈ (updatePosition e now s qc p).positions, q.2.quantity ≠ 0 := by
  intro q hq
  unfold updatePosition updateExposureMetrics at hq
  rcases hg : getA e.positions s with _ | pos
  · rw [hg] at hq
    simp only at hq
    rcases mem_setA hq with h | h
    · simp [h, hqc]
    · exact hinv q h
  · rw [hg] at hq
    simp only at hq
    by_cases hz : pos.quantity + qc = 0
    · rw [if_pos hz] at hq
      exact hinv q (mem_delA hq)
    · rw [if_neg hz] at hq
      rcases mem_setA hq with h | h
      · simp [h, hz]
      · exact hinv q h

/-- C7 (amended): over every sequence of `update_position` calls whose
quantity changes are all nonzero, the positions map never contains a
quantity-0 position (a position reaching exactly 0 is deleted); only a
first trade with quantity change 0 can violate the invariant. -/
theorem C7_no_zero_quantity_positions (ts : List Trade)
    (h : ∀ t ∈ ts, t.quantity_change ≠ 0) :
    ∀ q ∈ (applyTrades initEngine ts).positions, q.2.quantity ≠ 0 := by
  suffices H : ∀ (e : Engine), (∀ q ∈ e.positions, q.2.quantity ≠ 0) →
      ∀ q ∈ (applyTrades e ts).positions, q.2.quantity ≠ 0 by
    exact H initEngine (by simp [initEngine])
  induction ts with
  | nil => intro e he; simpa [applyTrades] using he
  | cons t ts ih =>
      intro e he
      have ht := h t (List.mem_cons_self _ _)
      have hrest : ∀ t' ∈ ts, t'.quantity_change ≠ 0 :=
        fun t' ht' => h t' (List.mem_cons_of_mem _ ht')
      have := ih hrest (updatePosition e t.time t.symbol t.quantity_change t.price)
        (updatePosition_preserves_nonzero e t.time t.symbol t.quantity_change t.price ht he)
      simpa [applyTrades] using this

/-- Witness for `C7_no_zero_quantity_positions` on a concrete trade list that
opens AAPL, fully closes it, and opens MSFT. -/
theorem C7_no_zero_quantity_positions_witness :
    (∀ t ∈ tradesWitness, t.quantity_change ≠ 0) ∧
    ∀ q ∈ (applyTrades initEngine tradesWitness).positions, q.2.quantity ≠ 0 :=
  ⟨by intro t ht; fin_cases ht <;> norm_num [tradesWitness],
   C7_no_zero_quantity_positions tradesWitness
     (by intro t ht; fin_cases ht <;> norm_num [tradesWitness])⟩

/-- C4: the handler performs no validation at all.  A decision with empty
symbol and correlation id, action FOO, confidence 2 and quantity −5 is
accepted without error and sits in the buffer afterwards, refuting the
claimed ValidationError rejection. -/
theorem C4_counterexample :
    (handleAgentDecision initService 0 badDecision).2 = none ∧
    getA (handleAgentDecision initService 0 badDecision).1.agent_decisions ("")
      = some [badDecision] ∧
    badDecision.symbol = "" ∧
    badDecision.correlation_id = "" ∧
    ¬(badDecision.action = "BUY" ∨ badDecision.action = "SELL" ∨
      badDecision.action = "HOLD") ∧
    ¬(0 ≤ badDecision.confidence ∧ badDecision.confidence ≤ 1) ∧
    badDecision.quantity < 0 := by
  refine ⟨?_, ?_, rfl, rfl, by simp [badDecision], by norm_num [badDecision],
    by norm_num [badDecision]⟩ <;>
    simp [handleAgentDecision, coordinateDecisions, bufferDecision, initService,
      badDecision, getA, setA, applyVotingStrategy]

/-- C4 (amended): the aggregator buffers every parsed decision unconditionally
— well-formed or not — and raises no ValidationError; the whole handler is
buffering followed by a coordination attempt. -/
theorem C4_no_validation (svc : MetaService) (now : Nat) (d : AgentDecision) :
    getA (bufferDecision svc d).agent_decisions d.symbol =
      some (((getA svc.agent_decisions d.symbol).getD []) ++ [d]) ∧
    handleAgentDecision svc now d =
      coordinateDecisions (bufferDecision svc d) now d.symbol d.correlation_id :=
  ⟨getA_setA_self _ _ _, rfl⟩

/-- The bucket/velocity tail of `check_order_risk` never touches the kill
switch: it returns the engine unchanged except possibly `order_count`. -/
theorem checkBucketAndVelocity_kill (e : Engine) (now : Nat) (s : String)
    (nv cv : ℚ) :
    ((checkBucketAndVelocity e now s nv cv).1).kill_switch_active
      = e.kill_switch_active := by
  unfold checkBucketAndVelocity
  dsimp only
  repeat' split
  all_goals rfl

/-- `check_order_risk` never writes the kill switch. -/
theorem checkOrderRisk_kill (e : Engine) (now : Nat) (s a : String) (q p : ℚ) :
    ((checkOrderRisk e now s a q p).1).kill_switch_active = e.kill_switch_active := by
  unfold checkOrderRisk
  dsimp only
  repeat' split
  all_goals first
    | rfl
    | exact checkBucketAndVelocity_kill _ _ _ _ _

/-- `update_position` never writes the kill switch. -/
theorem updatePosition_kill (e : Engine) (now : Nat) (s : String) (qc p : ℚ) :
    (updatePosition e now s qc p).kill_switch_active = e.kill_switch_active := by
  unfold updatePosition updateExposureMetrics
  dsimp only
  repeat' split
  all_goals rfl

/-- The periodic risk sweep can only raise the kill switch, never clear it. -/
theorem checkRiskLimitsSweep_kill (e : Engine) (now : Nat)
    (h : e.kill_switch_active = true) :
    (checkRiskLimitsSweep e now).kill_switch_active = true := by
  unfold checkRiskLimitsSweep emergencyStop
  dsimp only
  repeat' split
  all_goals simp [h]

/-- `update_market_prices` can only raise the kill switch, never clear it. -/
theorem updateMarketPrices_kill (e : Engine) (now : Nat)
    (prices : List (String × ℚ)) (h : e.kill_switch_active = true) :
    (updateMarketPrices e now prices).kill_switch_active = true := by
  unfold updateMarketPrices
  exact checkRiskLimitsSweep_kill _ _ (by simpa [updateExposureMetrics] using h)

/-- C6: the kill switch is monotonic across every core operation — no
operation ever clears it — and once it is set, `check_order_risk` denies
every order with an emergency-severity violation and an unchanged engine. -/
theorem C6_kill_switch_monotone (e : Engine) (now : Nat) (symbol action : String)
    (quantity price qc pr : ℚ) (prices : List (String × ℚ)) (reason : String) :
    ((checkOrderRisk e now symbol action quantity price).1).kill_switch_active
        = e.kill_switch_active ∧
    (updatePosition e now symbol qc pr).kill_switch_active = e.kill_switch_active ∧
    (e.kill_switch_active = true →
      (updateMarketPrices e now prices).kill_switch_active = true) ∧
    (emergencyStop e reason now).kill_switch_active = true ∧
    (resetDailyCounters e).kill_switch_active = e.kill_switch_active ∧
    (e.kill_switch_active = true →
      ∃ v, checkOrderRisk e now symbol action quantity price = (e, .ok (false, some v)) ∧
        v.severity = "emergency") := by
  refine ⟨checkOrderRisk_kill e now symbol action quantity price,
    updatePosition_kill e now symbol qc pr,
    updateMarketPrices_kill e now prices,
    rfl, rfl, ?_⟩
  intro h
  refine ⟨{ violation_type := .exposureLimit, symbol := some symbol,
            message := "Kill switch is active - all trading halted",
            severity := "emergency", timestamp := now }, ?_, rfl⟩
  simp [checkOrderRisk, h]

/-- Witness for `C6_kill_switch_monotone` on a kill-switched engine and a BUY
order. -/
theorem C6_kill_switch_monotone_witness :
    killSwitchEngine.kill_switch_active = true ∧
    ((checkOrderRisk killSwitchEngine 0 ("AAPL") ("BUY") 1 1).1).kill_switch_active = true ∧
    (updateMarketPrices killSwitchEngine 0 []).kill_switch_active = true ∧
    (emergencyStop killSwitchEngine ("drill") 0).kill_switch_active = true ∧
    (resetDailyCounters killSwitchEngine).kill_switch_active = true ∧
    ∃ v, checkOrderRisk killSwitchEngine 0 ("AAPL") ("BUY") 1 1
        = (killSwitchEngine, .ok (false, some v)) ∧ v.severity = "emergency" := by
  have h := C6_kill_switch_monotone killSwitchEngine 0 ("AAPL") ("BUY") 1 1 1 1 [] ("drill")
  exact ⟨rfl, by rw [h.1]; rfl, h.2.2.1 rfl, h.2.2.2.1,
    by rw [h.2.2.2.2.1]; rfl, h.2.2.2.2.2 rfl⟩

/-- C10: the override pipeline always hands the risk engine the constant
placeholder price 100 — its behaviour on any service state (in particular
after any sequence of market-price updates) coincides with the
price-parameterised pipeline at price 100, and the projected BUY value the
risk gate sees is (held quantity + order quantity) × 100, with no dependence
on the live price of the symbol. -/
theorem C10_risk_check_uses_placeholder_price (svc : MetaService) (now : Nat)
    (d : MetaDecision) (prices : List (String × ℚ)) :
    applyRiskOverrides svc now d = applyRiskOverridesAt 100 svc now d ∧
    estimatedPrice = 100 ∧
    projectedValue (updateMarketPrices svc.risk_engine now prices) d.symbol ("BUY")
        d.quantity estimatedPrice =
      (heldQuantity (updateMarketPrices svc.risk_engine now prices) d.symbol
        + d.quantity) * 100 := by
  refine ⟨rfl, rfl, ?_⟩
  simp [projectedValue, estimatedPrice]

/-- The running best of the Python `max` fold is one of the candidates. -/
theorem foldl_max_mem {β : Type} [LinearOrder β] (f : String → β) :
    ∀ (rest : List String) (a : String),
      rest.foldl (fun best x => if f best < f x then x else best) a ∈ a :: rest := by
  intro rest
  induction rest with
  | nil => intro a; simp
  | cons x xs ih =>
      intro a
      rw [List.foldl_cons]
      have h := ih (if f a < f x then x else a)
      rcases List.mem_cons.mp h with h' | h'
      · rw [h']
        by_cases hc : f a < f x
        · rw [if_pos hc]
          exact List.mem_cons_of_mem _ (List.mem_cons_self _ _)
        · rw [if_neg hc]
          exact List.mem_cons_self _ _
      · exact List.mem_cons_of_mem _ (List.mem_cons_of_mem _ h')

/-- A winner returned by `argmaxBy` is one of the candidate keys. -/
theorem argmaxBy_mem {β : Type} [LinearOrder β] (f : String → β) (l : List String)
    (w : String) (h : argmaxBy f l = some w) : w ∈ l := by
  cases l with
  | nil => simp [argmaxBy] at h
  | cons a rest =>
      simp only [argmaxBy, Option.some.injEq] at h
      exact h ▸ foldl_max_mem f rest a

/-- Membership in the dedup fold underlying `firstOccurrences`. -/
theorem mem_foldl_ins (l : List String) :
    ∀ (acc : List String) (a : String),
      (a ∈ l.foldl (fun acc x => if acc.contains x then acc else acc ++ [x]) acc)
        ↔ a ∈ acc ∨ a ∈ l := by
  induction l with
  | nil => intro acc a; simp
  | cons x xs ih =>
      intro acc a
      rw [List.foldl_cons, ih]
      by_cases hc : acc.contains x
      · rw [if_pos hc]
        have hx : x ∈ acc := by simpa using hc
        constructor
        · rintro (h | h)
          · exact Or.inl h
          · exact Or.inr (List.mem_cons_of_mem _ h)
        · rintro (h | h)
          · exact Or.inl h
          · rcases List.mem_cons.mp h with h' | h'
            · exact Or.inl (h' ▸ hx)
            · exact Or.inr h'
      · rw [if_neg hc]
        simp only [List.mem_append, List.mem_singleton, List.mem_cons]
        tauto

/-- Keys produced by `firstOccurrences` are exactly the elements of the
input list. -/
theorem mem_firstOccurrences (l : List String) (a : String) :
    a ∈ firstOccurrences l ↔ a ∈ l := by
  rw [firstOccurrences, mem_foldl_ins]
  simp

/-- The summed image of a filtered list is at most the summed image of the
whole list when the summand is nonnegative on every element. -/
theorem sum_map_filter_le (ds : List AgentDecision) (p : AgentDecision → Bool)
    (f : AgentDecision → ℚ) (h : ∀ d ∈ ds, 0 ≤ f d) :
    ((ds.filter p).map f).sum ≤ (ds.map f).sum := by
  induction ds with
  | nil => simp
  | cons d rest ih =>
      have hd0 := h d (List.mem_cons_self _ _)
      have hrest := ih (fun d' hd' => h d' (List.mem_cons_of_mem _ hd'))
      by_cases hp : p d
      · simpa [hp] using add_le_add_left hrest (f d)
      · simp only [List.filter_cons, hp, List.map_cons, List.sum_cons]
        exact le_trans hrest (le_add_of_nonneg_left hd0)

/-- The summed image of any sublist obtained by `filter` is nonnegative when
the summand is nonnegative on every element of the base list. -/
theorem sum_map_filter_nonneg (ds : List AgentDecision) (p : AgentDecision → Bool)
    (f : AgentDecision → ℚ) (h : ∀ d ∈ ds, 0 ≤ f d) :
    0 ≤ ((ds.filter p).map f).sum := by
  refine List.sum_nonneg ?_
  intro x hx
  rcases List.mem_map.mp hx with ⟨d, hd, rfl⟩
  exact h d (List.mem_filter.mp hd).1

/-- Result fields of `_confidence_weighted_vote`: confidence lands in [0,1]
whenever all input confidences are nonnegative, and the participating agents
are exactly the voters of the winning action. -/
theorem confidenceWeightedVote_spec (now : Nat) (ds : List AgentDecision)
    (md : MetaDecision)
    (hconf : ∀ d ∈ ds, 0 ≤ d.confidence)
    (h : confidenceWeightedVote now ds = some md) :
    (0 ≤ md.confidence ∧ md.confidence ≤ 1) ∧
    md.participating_agents =
      (ds.filter (fun d => d.action == md.action)).map (·.agent_id) := by
  cases ds with
  | nil => simp [confidenceWeightedVote] at h
  | cons d0 rest =>
      simp only [confidenceWeightedVote] at h
      rcases hw : argmaxBy (actionWeight (d0 :: rest))
          (firstOccurrences ((d0 :: rest).map (·.action))) with _ | w
      · rw [hw] at h; simp at h
      · rw [hw] at h
        rw [Option.some.injEq] at h
        subst h
        refine ⟨?_, rfl⟩
        have hw0 : 0 ≤ actionWeight (d0 :: rest) w :=
          sum_map_filter_nonneg _ _ _ hconf

        by_cases ht : ((d0 :: rest).map (·.confidence)).sum > 0
        · rw [if_pos ht]
          constructor
          · exact div_nonneg hw0 (le_of_lt ht)
          · rw [div_le_one ht]
            exact sum_map_filter_le _ _ _ hconf
        · rw [if_neg ht]
          norm_num

/-- Result fields of `_majority_vote`: confidence lands in [0,1] and the
participating agents are exactly the voters of the winning action. -/
theorem majorityVote_spec (now : Nat) (ds : List AgentDecision) (md : MetaDecision)
    (h : majorityVote now ds = some md) :
    (0 ≤ md.confidence ∧ md.confidence ≤ 1) ∧
    md.participating_agents =
      (ds.filter (fun d => d.action == md.action)).map (·.agent_id) := by
  cases ds with
  | nil => simp [majorityVote] at h
  | cons d0 rest =>
      simp only [majorityVote] at h
      rcases hw : argmaxBy (fun a => actionCount (d0 :: rest) a)
          (firstOccurrences ((d0 :: rest).map (·.action))) with _ | w
      · rw [hw] at h; simp at h
      · rw [hw] at h
        rw [Option.some.injEq] at h
        subst h
        refine ⟨?_, rfl⟩
        have hlen : (0 : ℚ) < ((d0 :: rest).length : ℚ) := by
          exact_mod_cast Nat.succ_pos rest.length
        constructor
        · exact div_nonneg (by exact_mod_cast Nat.zero_le _) (le_of_lt hlen)
        · rw [div_le_one hlen]
          exact_mod_cast List.length_filter_le _ _

/-- C8: every voting strategy that produces a decision from inputs whose
confidences lie in [0,1] yields a confidence in [0,1], and its participating
agents are exactly the agents whose action equals the winning action. -/
theorem C8_voting_confidence_and_participants (strat : VotingStrategy) (now : Nat)
    (ds : List AgentDecision) (md : MetaDecision)
    (hconf : ∀ d ∈ ds, 0 ≤ d.confidence ∧ d.confidence ≤ 1)
    (h : applyVotingStrategy strat now ds = some md) :
    (0 ≤ md.confidence ∧ md.confidence ≤ 1) ∧
    md.participating_agents =
      (ds.filter (fun d => d.action == md.action)).map (·.agent_id) := by
  have hconf0 : ∀ d ∈ ds, 0 ≤ d.confidence := fun d hd => (hconf d hd).1
  unfold applyVotingStrategy at h
  split at h
  · exact absurd h (by simp)
  · cases strat with
    | confidenceWeighted => exact confidenceWeightedVote_spec now ds md hconf0 h
    | majority => exact majorityVote_spec now ds md h
    | weighted => exact majorityVote_spec now ds md h
    | unanimous =>
        have h' : (if 1 < (firstOccurrences (ds.map (·.action))).length then none
            else majorityVote now ds) = some md := h
        by_cases hu : 1 < (firstOccurrences (ds.map (·.action))).length
        · rw [if_pos hu] at h'
          exact absurd h' (by simp)
        · rw [if_neg hu] at h'
          exact majorityVote_spec now ds md h'

/-- Witness for `C8_voting_confidence_and_participants`: the default
confidence-weighted strategy on one BUY (0.9) and one SELL (0.6) vote picks
BUY with confidence 0.6 and only agent a1 participating. -/
theorem C8_voting_confidence_and_participants_witness :
    (∀ d ∈ [dBuy1, dSell], 0 ≤ d.confidence ∧ d.confidence ≤ 1) ∧
    applyVotingStrategy .confidenceWeighted 7 [dBuy1, dSell] = some mdVoteWitness ∧
    ((0 ≤ mdVoteWitness.confidence ∧ mdVoteWitness.confidence ≤ 1) ∧
     mdVoteWitness.participating_agents =
       (([dBuy1, dSell]).filter (fun d => d.action == mdVoteWitness.action)).map
         (·.agent_id)) := by
  have h1 : ∀ d ∈ [dBuy1, dSell], 0 ≤ d.confidence ∧ d.confidence ≤ 1 := by
    intro d hd
    fin_cases hd <;> norm_num [dBuy1, dSell]
  have h2 : applyVotingStrategy .confidenceWeighted 7 [dBuy1, dSell]
      = some mdVoteWitness := by
    simp [applyVotingStrategy, confidenceWeightedVote, dBuy1, dSell, mdVoteWitness,
      firstOccurrences, actionWeight, actionWeightedQty, actionAgents, votingGroup,
      argmaxBy, List.filter_cons, beq_iff_eq]
    norm_num
    simp
    norm_num
  exact ⟨h1, h2,
    C8_voting_confidence_and_participants .confidenceWeighted 7 [dBuy1, dSell]
      mdVoteWitness h1 h2⟩

/-- The override pipeline mutates only the risk engine inside the service
state (the decision buffers are untouched by it). -/
theorem applyRiskOverridesAt_fst (price : ℚ) (svc : MetaService) (now : Nat)
    (d : MetaDecision) :
    (applyRiskOverridesAt price svc now d).1 =
      { svc with risk_engine :=
          (checkOrderRisk svc.risk_engine now d.symbol d.action d.quantity price).1 } := by
  unfold applyRiskOverridesAt
  dsimp only
  repeat' split
  all_goals rfl

/-- C9: whenever coordination fires for a (symbol, correlation id) pair with
at least two buffered decisions, the vote produces a decision and the risk
check returns without an exception, exactly the decisions with that
correlation id are removed from that symbol's buffer, and every other
buffer entry is untouched. -/
theorem C9_coordination_removes_exactly (svc : MetaService) (now : Nat)
    (symbol cid : String) (md : MetaDecision)
    (h1 : 2 ≤ (((getA svc.agent_decisions symbol).getD []).filter
        (fun d => d.correlation_id == cid)).length)
    (h2 : applyVotingStrategy svc.voting_strategy now
        (((getA svc.agent_decisions symbol).getD []).filter
          (fun d => d.correlation_id == cid)) = some md)
    (h3 : (applyRiskOverrides svc now md).2.isOk = true) :
    (coordinateDecisions svc now symbol cid).2 = none ∧
    getA ((coordinateDecisions svc now symbol cid).1).agent_decisions symbol =
      some (((getA svc.agent_decisions symbol).getD []).filter
        (fun d => !(d.correlation_id == cid))) ∧
    ∀ s, s ≠ symbol →
      getA ((coordinateDecisions svc now symbol cid).1).agent_decisions s =
        getA svc.agent_decisions s := by
  have hfst : ((applyRiskOverrides svc now md).1).agent_decisions
      = svc.agent_decisions := by
    rw [applyRiskOverrides, applyRiskOverridesAt_fst]
  unfold coordinateDecisions
  try dsimp only
  rw [if_neg (by omega), h2]
  try dsimp only
  rcases hres : (applyRiskOverrides svc now md).2 with pe | fd
  · rw [hres] at h3
    simp [Except.isOk, Except.toBool] at h3
  · dsimp only
    rw [hfst]
    refine ⟨rfl, getA_setA_self _ _ _, ?_⟩
    intro s hs
    exact getA_setA_ne _ _ _ _ (Ne.symm hs)

/-- Witness for `C9_coordination_removes_exactly`: round c1 of AAPL fires on
two buffered BUY votes; afterwards only the c2 decision stays in the AAPL
buffer and the MSFT buffer is unchanged. -/
theorem C9_coordination_removes_exactly_witness :
    2 ≤ (((getA svcTwoBuffers.agent_decisions ("AAPL")).getD []).filter
        (fun d => d.correlation_id == "c1")).length ∧
    applyVotingStrategy svcTwoBuffers.voting_strategy 120000
        (((getA svcTwoBuffers.agent_decisions ("AAPL")).getD []).filter
          (fun d => d.correlation_id == "c1")) = some mdCoordWitness ∧
    (applyRiskOverrides svcTwoBuffers 120000 mdCoordWitness).2.isOk = true ∧
    ((coordinateDecisions svcTwoBuffers 120000 ("AAPL") ("c1")).2 = none ∧
     getA ((coordinateDecisions svcTwoBuffers 120000 ("AAPL") ("c1")).1).agent_decisions
         ("AAPL") =
       some (((getA svcTwoBuffers.agent_decisions ("AAPL")).getD []).filter
         (fun d => !(d.correlation_id == "c1"))) ∧
     ∀ s, s ≠ "AAPL" →
       getA ((coordinateDecisions svcTwoBuffers 120000 ("AAPL") ("c1")).1).agent_decisions s
         = getA svcTwoBuffers.agent_decisions s) := by
  have h1 : 2 ≤ (((getA svcTwoBuffers.agent_decisions ("AAPL")).getD []).filter
      (fun d => d.correlation_id == "c1")).length := by
    simp [svcTwoBuffers, initService, getA, dBuy1, dBuy2, dOtherCorr]
  have h2 : applyVotingStrategy svcTwoBuffers.voting_strategy 120000
      (((getA svcTwoBuffers.agent_decisions ("AAPL")).getD []).filter
        (fun d => d.correlation_id == "c1")) = some mdCoordWitness := by
    simp [svcTwoBuffers, initService, getA, dBuy1, dBuy2, dOtherCorr, mdCoordWitness,
      applyVotingStrategy, confidenceWeightedVote, firstOccurrences, actionWeight,
      actionWeightedQty, actionAgents, votingGroup, argmaxBy, List.filter_cons,
      beq_iff_eq]
    norm_num
  have h3 : (applyRiskOverrides svcTwoBuffers 120000 mdCoordWitness).2.isOk = true := by
    simp [applyRiskOverrides, applyRiskOverridesAt, estimatedPrice, svcTwoBuffers,
      initService, mdCoordWitness, checkOrderRisk, initEngine, projectedValue,
      heldQuantity, getA, setA, totalValue, Position.value, checkBucketAndVelocity,
      getCorrelationBucket, correlationBuckets, bumpCount, pruneCounts,
      Except.isOk, Except.toBool]
    norm_num
  exact ⟨h1, h2, h3,
    C9_coordination_removes_exactly svcTwoBuffers 120000 ("AAPL") ("c1")
      mdCoordWitness h1 h2 h3⟩

end NEO
